import Mathlib

/-!
Verification of the Observable/Observer core of `src/index.ts`.

The TypeScript core is a push-based stream: an `Observer` wraps a record of
optional callbacks (`next`, `error`, `complete`) behind an `isUnsubscribed`
gate and an optional teardown `_unsubscribe`; an `Observable` wraps a
producer function, and `subscribe` builds a fresh `Observer`, runs the
producer with it synchronously, stores the producer's returned teardown,
and hands back a handle whose `unsubscribe()` delegates to the observer.

Shallow embedding used here: the user-supplied callbacks are opaque to the
core, so an `Observer` is modelled by the presence flags of its three
optional handlers plus the two mutable booleans, and every operation
returns the updated observer together with the trace of callback
invocations it performed (`Ev`).  A synchronous producer is a straight-line
sequence of calls on the observer, modelled by a list of `Action`s.
A producer that throws is modelled by `ProducerE`/`subscribeThrow`
returning `Except`.  A handler that itself re-enters the observer is
modelled by `errorWith`/`completeWith`, which take the handler body as a
state transformer.
-/

namespace TsCore

/-- Presence flags of the optional callbacks of `Handler<T>` in
`src/index.ts` (the callbacks themselves are external; invoking one is
recorded as an event in the trace). -/
structure Handler where
  hasNext : Bool
  hasError : Bool
  hasComplete : Bool
deriving DecidableEq, Repr

/-- One observable callback invocation performed by the core: a call of the
supplied `next`, `error` or `complete` handler, or a run of the registered
teardown `_unsubscribe`. -/
inductive Ev (T E : Type) where
  | next (v : T)
  | error (e : E)
  | complete
  | teardown
deriving DecidableEq, Repr

/-- Returns true on the teardown event. -/
def Ev.isTeardown : Ev T E → Bool
  | Ev.teardown => true
  | _ => false

/-- Returns true on events that invoke a handler callback
(`next`/`error`/`complete`), false on the teardown. -/
def Ev.isHandlerEv : Ev T E → Bool
  | Ev.teardown => false
  | _ => true

/-- State of `class Observer<T>`: the handler presence flags, the
`isUnsubscribed` gate, and whether the optional teardown `_unsubscribe`
has been assigned. -/
structure Observer (T E : Type) where
  handlers : Handler
  isUnsubscribed : Bool
  teardownSet : Bool
deriving DecidableEq, Repr

/-- The `Observer` constructor: stores the handlers, sets
`isUnsubscribed = false`; `_unsubscribe` is not yet assigned. -/
def Observer.ofHandlers (h : Handler) : Observer T E :=
  { handlers := h, isUnsubscribed := false, teardownSet := false }

/-- `Observer.next(value)`: invokes `handlers.next(value)` iff the callback
was supplied and the observer is not unsubscribed. -/
def Observer.next (s : Observer T E) (v : T) : Observer T E × List (Ev T E) :=
  if s.handlers.hasNext && !s.isUnsubscribed then (s, [Ev.next v]) else (s, [])

/-- `Observer.unsubscribe()`: sets `isUnsubscribed = true` unconditionally,
then runs `_unsubscribe()` if it has been assigned.  Note: the source has
no guard against a repeated call, so the teardown runs once per call. -/
def Observer.unsubscribe (s : Observer T E) : Observer T E × List (Ev T E) :=
  ({ s with isUnsubscribed := true },
    if s.teardownSet then [Ev.teardown] else [])

/-- `Observer.error(error)`: if not unsubscribed, invokes `handlers.error`
when supplied, then calls `this.unsubscribe()`; otherwise a no-op. -/
def Observer.error (s : Observer T E) (e : E) : Observer T E × List (Ev T E) :=
  if s.isUnsubscribed then (s, [])
  else
    let evs := if s.handlers.hasError then [Ev.error e] else []
    let r := Observer.unsubscribe s
    (r.1, evs ++ r.2)

/-- `Observer.complete()`: if not unsubscribed, invokes `handlers.complete`
when supplied, then calls `this.unsubscribe()`; otherwise a no-op. -/
def Observer.complete (s : Observer T E) : Observer T E × List (Ev T E) :=
  if s.isUnsubscribed then (s, [])
  else
    let evs := if s.handlers.hasComplete then [Ev.complete] else []
    let r := Observer.unsubscribe s
    (r.1, evs ++ r.2)

/-- General form of `Observer.error` in which the supplied error callback
is an arbitrary body `hdl` that may itself act on the observer (the source
calls `this.handlers.error(error)` before `this.unsubscribe()`, so `hdl`
sees the observer state of that moment). -/
def Observer.errorWith (s : Observer T E)
    (hdl : Observer T E → Observer T E × List (Ev T E)) (e : E) :
    Observer T E × List (Ev T E) :=
  if s.isUnsubscribed then (s, [])
  else
    let r1 := if s.handlers.hasError then
        let r := hdl s
        (r.1, Ev.error e :: r.2)
      else (s, ([] : List (Ev T E)))
    let r2 := Observer.unsubscribe r1.1
    (r2.1, r1.2 ++ r2.2)

/-- General form of `Observer.complete` in which the supplied complete
callback is an arbitrary body `hdl` that may itself act on the observer. -/
def Observer.completeWith (s : Observer T E)
    (hdl : Observer T E → Observer T E × List (Ev T E)) :
    Observer T E × List (Ev T E) :=
  if s.isUnsubscribed then (s, [])
  else
    let r1 := if s.handlers.hasComplete then
        let r := hdl s
        (r.1, Ev.complete :: r.2)
      else (s, ([] : List (Ev T E)))
    let r2 := Observer.unsubscribe r1.1
    (r2.1, r1.2 ++ r2.2)

/-- One call a synchronous producer can make on its observer. -/
inductive Action (T E : Type) where
  | next (v : T)
  | error (e : E)
  | complete
  | unsubscribe
deriving DecidableEq, Repr

/-- Dispatches one producer call to the corresponding observer method. -/
def applyAction (s : Observer T E) : Action T E → Observer T E × List (Ev T E)
  | Action.next v => Observer.next s v
  | Action.error e => Observer.error s e
  | Action.complete => Observer.complete s
  | Action.unsubscribe => Observer.unsubscribe s

/-- Runs a straight-line producer body: the calls execute in order in the
same stack frame, and the traces concatenate in that order. -/
def runActions : Observer T E → List (Action T E) → Observer T E × List (Ev T E)
  | s, [] => (s, [])
  | s, a :: rest =>
    let r := applyAction s a
    let r2 := runActions r.1 rest
    (r2.1, r.2 ++ r2.2)

/-- `class Observable<T>`: an immutable wrapper around a producer; the
producer's synchronous body is its sequence of observer calls (every
producer of the source returns a teardown function, recorded by
`subscribe`). -/
structure Observable (T E : Type) where
  producer : List (Action T E)

/-- Producer body of `Observable.from(values)`: `values.forEach(observer.next)`
then `observer.complete()`. -/
def fromActs (values : List T) : List (Action T E) :=
  values.map Action.next ++ [Action.complete]

/-- `Observable.from(values)`: an observable whose producer emits every
element in order, completes, and returns a (diagnostic) teardown. -/
def Observable.fromValues (values : List T) : Observable T E :=
  { producer := fromActs values }

/-- `Observable.subscribe(handlers)`: builds a fresh observer from the
handlers, runs the producer with it synchronously, then assigns the
producer's returned teardown to `observer._unsubscribe`.  The returned
observer is the one the subscription handle closes over. -/
def Observable.subscribe (o : Observable T E) (h : Handler) :
    Observer T E × List (Ev T E) :=
  let r := runActions (Observer.ofHandlers h) o.producer
  ({ r.1 with teardownSet := true }, r.2)

/-- The subscription handle's `unsubscribe()` method: it just calls
`observer.unsubscribe()` on the observer it closes over. -/
def Subscription.unsubscribe (s : Observer T E) : Observer T E × List (Ev T E) :=
  Observer.unsubscribe s

/-- A producer that may throw: it performs `acts` and then, when `thrown`
is set, raises that exception instead of returning a teardown. -/
structure ProducerE (T E X : Type) where
  acts : List (Action T E)
  thrown : Option X

/-- `subscribe` on a possibly-throwing producer.  The source body of
`subscribe` has no try/catch, so an exception from the producer escapes to
the caller (`Except.error`) before `observer._unsubscribe` is assigned;
otherwise the teardown is stored and the handle is returned. -/
def subscribeThrow (p : ProducerE T E X) (h : Handler) :
    List (Ev T E) × Except X (Observer T E) :=
  let r := runActions (Observer.ofHandlers h) p.acts
  match p.thrown with
  | some x => (r.2, Except.error x)
  | none => (r.2, Except.ok { r.1 with teardownSet := true })

/-- A world of several live subscriptions, in creation order.  The source
keeps no cross-subscription state: each `subscribe` call allocates its own
`Observer`, so the world is just the list of those observers. -/
abbrev World (T E : Type) : Type := List (Observer T E)

/-- Looks up the observer of subscription `i`. -/
def World.nth : World T E → Nat → Option (Observer T E)
  | [], _ => none
  | s :: _, 0 => some s
  | _ :: rest, Nat.succ n => World.nth rest n

/-- A new subscription to `o` in world `w`: the fresh observer is appended;
the producer runs only against that fresh observer. -/
def World.subscribeW (w : World T E) (o : Observable T E) (h : Handler) :
    World T E × List (Ev T E) :=
  (w ++ [(o.subscribe h).1], (o.subscribe h).2)

/-- Subscription `i`'s producer (or a callback of it) performs one call on
its own observer; all other subscriptions are untouched. -/
def World.stepAt : World T E → Nat → Action T E → World T E × List (Ev T E)
  | [], _, _ => ([], [])
  | s :: rest, 0, a => ((applyAction s a).1 :: rest, (applyAction s a).2)
  | s :: rest, Nat.succ n, a =>
    let r := World.stepAt rest n a
    (s :: r.1, r.2)

/-- The handle of subscription `i` is unsubscribed; all other
subscriptions are untouched. -/
def World.unsubscribeAt : World T E → Nat → World T E × List (Ev T E)
  | [], _ => ([], [])
  | s :: rest, 0 => ((Observer.unsubscribe s).1 :: rest, (Observer.unsubscribe s).2)
  | s :: rest, Nat.succ n =>
    let r := World.unsubscribeAt rest n
    (s :: r.1, r.2)

/-! ## Basic lemmas about one observer call -/

theorem applyAction_handlers (s : Observer T E) (a : Action T E) :
    ((applyAction s a).1).handlers = s.handlers := by
  cases a <;>
    simp only [applyAction, Observer.next, Observer.error, Observer.complete,
      Observer.unsubscribe] <;>
    (try split) <;> rfl

theorem applyAction_teardownSet (s : Observer T E) (a : Action T E) :
    ((applyAction s a).1).teardownSet = s.teardownSet := by
  cases a <;>
    simp only [applyAction, Observer.next, Observer.error, Observer.complete,
      Observer.unsubscribe] <;>
    (try split) <;> rfl

theorem applyAction_mono (s : Observer T E) (a : Action T E)
    (h : s.isUnsubscribed = true) :
    ((applyAction s a).1).isUnsubscribed = true := by
  cases a <;>
    simp only [applyAction, Observer.next, Observer.error, Observer.complete,
      Observer.unsubscribe] <;>
    (try split) <;> simp [h]

theorem applyAction_terminated (s : Observer T E) (a : Action T E)
    (h : s.isUnsubscribed = true) :
    (applyAction s a).1 = s ∧ ((applyAction s a).2).countP Ev.isHandlerEv = 0 := by
  cases s with
  | mk hs u td =>
    cases h
    cases a <;>
      simp [applyAction, Observer.next, Observer.error, Observer.complete,
        Observer.unsubscribe, Ev.isHandlerEv]

/-! ## Lemmas about producer runs -/

theorem runActions_handlers (acts : List (Action T E)) :
    ∀ s : Observer T E, ((runActions s acts).1).handlers = s.handlers := by
  induction acts with
  | nil => intro s; rfl
  | cons a rest ih =>
    intro s
    simp only [runActions]
    rw [ih]
    exact applyAction_handlers s a

theorem runActions_teardownSet (acts : List (Action T E)) :
    ∀ s : Observer T E, ((runActions s acts).1).teardownSet = s.teardownSet := by
  induction acts with
  | nil => intro s; rfl
  | cons a rest ih =>
    intro s
    simp only [runActions]
    rw [ih]
    exact applyAction_teardownSet s a

theorem runActions_mono (acts : List (Action T E)) :
    ∀ s : Observer T E, s.isUnsubscribed = true →
      ((runActions s acts).1).isUnsubscribed = true := by
  induction acts with
  | nil => intro s h; exact h
  | cons a rest ih =>
    intro s h
    simp only [runActions]
    exact ih _ (applyAction_mono s a h)

theorem runActions_append (xs ys : List (Action T E)) :
    ∀ s : Observer T E, runActions s (xs ++ ys) =
      ((runActions (runActions s xs).1 ys).1,
        (runActions s xs).2 ++ (runActions (runActions s xs).1 ys).2) := by
  induction xs with
  | nil => intro s; simp [runActions]
  | cons a rest ih =>
    intro s
    simp only [List.cons_append, runActions, List.append_eq]
    rw [ih]
    simp [List.append_assoc]

theorem runActions_terminated (acts : List (Action T E)) :
    ∀ s : Observer T E, s.isUnsubscribed = true →
      (runActions s acts).1 = s ∧
        ((runActions s acts).2).countP Ev.isHandlerEv = 0 := by
  induction acts with
  | nil => intro s h; exact ⟨rfl, rfl⟩
  | cons a rest ih =>
    intro s h
    obtain ⟨h1, h2⟩ := applyAction_terminated s a h
    simp only [runActions]
    rw [h1]
    obtain ⟨h3, h4⟩ := ih s h
    refine ⟨h3, ?_⟩
    simp [List.countP_append, h2, h4]

theorem runActions_fromActs (s : Observer T E) (S : List T)
    (h : s.isUnsubscribed = false) :
    runActions s (fromActs S) = ({ s with isUnsubscribed := true },
      (if s.handlers.hasNext then S.map Ev.next else []) ++
      (if s.handlers.hasComplete then [Ev.complete] else []) ++
      (if s.teardownSet then [Ev.teardown] else [])) := by
  induction S with
  | nil =>
    simp only [fromActs, List.map_nil, List.nil_append, runActions, applyAction,
      Observer.complete, Observer.unsubscribe, h]
    simp
  | cons v S ih =>
    have step : fromActs (v :: S) = Action.next v :: fromActs (E := E) S := by
      simp [fromActs]
    rw [step]
    simp only [runActions, applyAction, Observer.next, h]
    cases hn : s.handlers.hasNext <;> simp only [Bool.false_and, Bool.true_and] <;>
      simp [ih, hn]

theorem applyAction_no_teardown (s : Observer T E) (a : Action T E)
    (h : s.teardownSet = false) :
    ((applyAction s a).2).countP Ev.isTeardown = 0 := by
  cases a <;>
    simp [applyAction, Observer.next, Observer.error, Observer.complete,
      Observer.unsubscribe, Ev.isTeardown, h] <;>
    split <;> simp [Ev.isTeardown]

theorem runActions_no_teardown (acts : List (Action T E)) :
    ∀ s : Observer T E, s.teardownSet = false →
      ((runActions s acts).2).countP Ev.isTeardown = 0 := by
  induction acts with
  | nil => intro s h; rfl
  | cons a rest ih =>
    intro s h
    have hpres : ((applyAction s a).1).teardownSet = false := by
      rw [applyAction_teardownSet]; exact h
    simp only [runActions, List.countP_append]
    rw [applyAction_no_teardown s a h, ih _ hpres]

/-! ## Consistency of the re-entrant handler model with the base model -/

theorem errorWith_trivial (s : Observer T E) (e : E) :
    Observer.errorWith s (fun t => (t, [])) e = Observer.error s e := by
  cases s with
  | mk hs u td =>
    cases u <;> cases hhe : hs.hasError <;>
      simp [Observer.errorWith, Observer.error, Observer.unsubscribe, hhe]

theorem completeWith_trivial (s : Observer T E) :
    Observer.completeWith s (fun t => (t, [])) = Observer.complete s := by
  cases s with
  | mk hs u td =>
    cases u <;> cases hhc : hs.hasComplete <;>
      simp [Observer.completeWith, Observer.complete, Observer.unsubscribe, hhc]

/-! ## Claim theorems -/

/-- Claim C2: for every finite sequence `S` (the empty one included),
subscribing to `from(S)` with `next` and `complete` handlers supplied
invokes `next` exactly once per element of `S`, in order, then `complete`
exactly once, and nothing afterwards: the whole delivery trace of the
subscription is exactly the `next` events of `S` followed by one
`complete` event. -/
theorem from_subscribe_emits_in_order_then_completes {T E : Type}
    (S : List T) (he : Bool) :
    ((Observable.fromValues S : Observable T E).subscribe ⟨true, he, true⟩).2 =
      S.map Ev.next ++ [Ev.complete] := by
  have h := runActions_fromActs
    (Observer.ofHandlers ⟨true, he, true⟩ : Observer T E) S rfl
  simp [Observer.ofHandlers] at h
  simp [Observable.subscribe, Observable.fromValues, Observer.ofHandlers, h]

/-- Claim C3: an observer's `isUnsubscribed` flag starts false, no
operation ever resets it, and once it is true every further
`next`/`error`/`complete` call returns the observer unchanged and invokes
no handler callback at all (the operations are total, so no exception can
arise). -/
theorem observer_terminal_is_permanent_noop {T E : Type} :
    (∀ h : Handler, (Observer.ofHandlers h : Observer T E).isUnsubscribed = false) ∧
    (∀ (s : Observer T E) (a : Action T E), s.isUnsubscribed = true →
      ((applyAction s a).1).isUnsubscribed = true) ∧
    (∀ (s : Observer T E) (e : E), s.isUnsubscribed = false →
      ((Observer.error s e).1).isUnsubscribed = true) ∧
    (∀ s : Observer T E, s.isUnsubscribed = false →
      ((Observer.complete s).1).isUnsubscribed = true) ∧
    (∀ s : Observer T E, s.isUnsubscribed = true →
      (∀ v : T, Observer.next s v = (s, [])) ∧
      (∀ e : E, Observer.error s e = (s, [])) ∧
      Observer.complete s = (s, [])) := by
  refine ⟨fun h => rfl, applyAction_mono, ?_, ?_, ?_⟩
  · intro s e h
    simp [Observer.error, Observer.unsubscribe, h]
  · intro s h
    simp [Observer.complete, Observer.unsubscribe, h]
  · intro s h
    refine ⟨fun v => ?_, fun e => ?_, ?_⟩
    · simp [Observer.next, h]
    · simp [Observer.error, h]
    · simp [Observer.complete, h]

/-- Witness for C3 at a concrete terminated observer. -/
theorem observer_terminal_is_permanent_noop_witness :
    ((applyAction (⟨⟨true, true, true⟩, true, false⟩ : Observer Nat Nat)
        (Action.next 5)).1).isUnsubscribed = true ∧
    Observer.next (⟨⟨true, true, true⟩, true, false⟩ : Observer Nat Nat) 7 =
      (⟨⟨true, true, true⟩, true, false⟩, []) :=
  ⟨observer_terminal_is_permanent_noop.2.1 _ _ rfl,
   (observer_terminal_is_permanent_noop.2.2.2.2 _ rfl).1 7⟩

/-- Claim C5: omitted handler callbacks never cause a fault: with an
arbitrary handler record (any subset supplied) a `from` subscription still
reaches the terminated state, the throwing-producer embedding returns a
normal result, a terminal `error`/`complete` on an observer with a
registered teardown still unsubscribes and runs the teardown, and
concretely `subscribe({})` on `from([1,2,3])` terminates with an empty
delivery trace. -/
theorem missing_handlers_never_fault {T E : Type} :
    (∀ (S : List T) (h : Handler),
      (((Observable.fromValues S : Observable T E).subscribe h).1).isUnsubscribed
        = true) ∧
    (∀ (S : List T) (h : Handler),
      (subscribeThrow (⟨fromActs S, none⟩ : ProducerE T E Unit) h).2 =
        Except.ok ⟨h, true, true⟩) ∧
    (∀ (h : Handler) (e : E),
      ((Observer.error (⟨h, false, true⟩ : Observer T E) e).1).isUnsubscribed
          = true ∧
      ((Observer.error (⟨h, false, true⟩ : Observer T E) e).2).countP
          Ev.isTeardown = 1) ∧
    (∀ h : Handler,
      ((Observer.complete (⟨h, false, true⟩ : Observer T E)).1).isUnsubscribed
          = true ∧
      ((Observer.complete (⟨h, false, true⟩ : Observer T E)).2).countP
          Ev.isTeardown = 1) ∧
    ((Observable.fromValues [1, 2, 3] : Observable Nat Nat).subscribe
        ⟨false, false, false⟩ =
      (⟨⟨false, false, false⟩, true, true⟩, [])) := by
  refine ⟨?_, ?_, ?_, ?_, by decide⟩
  · intro S h
    have hrun := runActions_fromActs (Observer.ofHandlers h : Observer T E) S rfl
    simp [Observer.ofHandlers] at hrun
    simp [Observable.subscribe, Observable.fromValues, Observer.ofHandlers, hrun]
  · intro S h
    have hrun := runActions_fromActs (Observer.ofHandlers h : Observer T E) S rfl
    simp [Observer.ofHandlers] at hrun
    simp [subscribeThrow, Observer.ofHandlers, hrun]
  · intro h e
    cases hhe : h.hasError <;>
      simp [Observer.error, Observer.unsubscribe, Ev.isTeardown, hhe]
  · intro h
    cases hhc : h.hasComplete <;>
      simp [Observer.complete, Observer.unsubscribe, Ev.isTeardown, hhc]


/-- Claim C1 (evaluated at the failing input): the source `unsubscribe` has
no guard against re-execution, so the teardown does not run exactly once.
During `from([]).subscribe({})` the internal `complete` reaches
`unsubscribe` before `_unsubscribe` is assigned, so the teardown runs zero
times there; after `subscribe` returns, each of two calls on the handle
runs the registered teardown again, so it runs twice. -/
theorem unsubscribe_runs_teardown_once_per_call :
    (((Observable.fromValues ([] : List Nat) : Observable Nat Nat).subscribe
        ⟨false, false, false⟩).2).countP Ev.isTeardown = 0 ∧
    ((Observer.unsubscribe
        (((Observable.fromValues ([] : List Nat) : Observable Nat Nat).subscribe
          ⟨false, false, false⟩).1)).2 ++
      (Observer.unsubscribe
        ((Observer.unsubscribe
          (((Observable.fromValues ([] : List Nat) : Observable Nat Nat).subscribe
            ⟨false, false, false⟩).1)).1)).2).countP Ev.isTeardown = 2 := by
  decide

/-- Claim C9: during the producer's synchronous run inside `subscribe` the
teardown can never fire, because `observer._unsubscribe` is assigned only
after the producer returns: the delivery trace of any subscription contains
no teardown event.  The teardown runs only when `unsubscribe` is invoked
again afterwards: on the observer `subscribe` hands back, one `unsubscribe`
call emits exactly the teardown event. -/
theorem teardown_not_run_during_producer {T E : Type} :
    (∀ (p : List (Action T E)) (h : Handler),
      (((Observable.mk p : Observable T E).subscribe h).2).countP
        Ev.isTeardown = 0) ∧
    (∀ (S : List T) (h : Handler),
      Observer.unsubscribe
          (((Observable.fromValues S : Observable T E).subscribe h).1) =
        (⟨h, true, true⟩, [Ev.teardown])) := by
  constructor
  · intro p h
    have hz := runActions_no_teardown p (Observer.ofHandlers h : Observer T E) rfl
    simp [Observable.subscribe, hz]
  · intro S h
    have hrun := runActions_fromActs (Observer.ofHandlers h : Observer T E) S rfl
    simp [Observer.ofHandlers] at hrun
    simp [Observable.subscribe, Observable.fromValues, Observer.ofHandlers, hrun,
      Observer.unsubscribe]


/-- Claim C6: once `unsubscribe` happens at any point of a producer run,
every later `next`/`error`/`complete` call of that run invokes no handler:
the count of handler-callback events in the whole run equals the count in
the run truncated right after the `unsubscribe` call, whatever calls
follow it. -/
theorem unsubscribe_halts_delivery {T E : Type} (s : Observer T E)
    (pre rest : List (Action T E)) :
    ((runActions s (pre ++ Action.unsubscribe :: rest)).2).countP Ev.isHandlerEv =
      ((runActions s (pre ++ [Action.unsubscribe])).2).countP Ev.isHandlerEv := by
  have tail0 : ∀ (s1 : Observer T E) (acts : List (Action T E)),
      ((runActions s1 (Action.unsubscribe :: acts)).2).countP Ev.isHandlerEv
        = 0 := by
    intro s1 acts
    have hterm := runActions_terminated acts
      ({ s1 with isUnsubscribed := true } : Observer T E) rfl
    simp only [runActions, applyAction, Observer.unsubscribe, List.countP_append]
    rw [hterm.2]
    split <;> simp [Ev.isHandlerEv]
  rw [runActions_append pre (Action.unsubscribe :: rest) s,
    runActions_append pre [Action.unsubscribe] s]
  simp only [List.countP_append]
  rw [tail0, tail0]

/-- Claim C4: a producer that throws is not caught by `subscribe`: the
exception surfaces to the caller unchanged, the throw routes nothing to
the handlers (the delivery trace equals the trace of the same producer
body without the throw), and an `error`-handler invocation occurs in a
producer run only when the producer explicitly called `observer.error`
with that payload. -/
theorem producer_throw_propagates_uncaught {T E X : Type} :
    (∀ (p : List (Action T E)) (x : X) (h : Handler),
      (subscribeThrow ⟨p, some x⟩ h).2 = Except.error x) ∧
    (∀ (p : List (Action T E)) (x : X) (h : Handler),
      (subscribeThrow ⟨p, some x⟩ h).1 =
        (subscribeThrow (⟨p, none⟩ : ProducerE T E X) h).1) ∧
    (∀ (s : Observer T E) (p : List (Action T E)) (e : E),
      Ev.error e ∈ (runActions s p).2 → Action.error e ∈ p) := by
  refine ⟨fun p x h => rfl, fun p x h => rfl, ?_⟩
  have head : ∀ (s : Observer T E) (a : Action T E) (e : E),
      Ev.error e ∈ (applyAction s a).2 → a = Action.error e := by
    intro s a e hm
    obtain ⟨⟨hn, he, hc⟩, u, td⟩ := s
    cases a <;> cases u <;> cases hn <;> cases he <;> cases hc <;> cases td <;>
      simp_all [applyAction, Observer.next, Observer.error, Observer.complete,
        Observer.unsubscribe]
  intro s p e
  induction p generalizing s with
  | nil =>
    intro hmem
    simp [runActions] at hmem
  | cons a rest ih =>
    intro hmem
    simp only [runActions, List.mem_append] at hmem
    rcases hmem with hm | hm
    · rcases head s a e hm with rfl
      exact List.mem_cons_self _ _
    · exact List.mem_cons_of_mem _ (ih _ hm)

/-- Witness for C4 at a concrete producer that calls `error(3)`. -/
theorem producer_throw_propagates_uncaught_witness :
    Action.error 3 ∈ [Action.error (T := Nat) (E := Nat) 3] :=
  (producer_throw_propagates_uncaught (T := Nat) (E := Nat) (X := Nat)).2.2
    (Observer.ofHandlers ⟨true, true, true⟩) [Action.error 3] 3 (by decide)

/-- Claim C7: `subscribe` allocates a fresh observer carrying exactly the
supplied handlers (no producer call ever changes them), runs the producer
against that fresh observer so that the whole delivery trace is produced
before `subscribe` returns, stores the producer's returned teardown on the
observer, and the returned handle's `unsubscribe` is exactly the
observer's `unsubscribe`. -/
theorem subscribe_control_flow {T E : Type} :
    (∀ h : Handler, (Observer.ofHandlers h : Observer T E) =
      ⟨h, false, false⟩) ∧
    (∀ (p : List (Action T E)) (h : Handler),
      (((Observable.mk p : Observable T E).subscribe h).1).handlers = h) ∧
    (∀ (p : List (Action T E)) (h : Handler),
      (((Observable.mk p : Observable T E).subscribe h).1).teardownSet = true) ∧
    (∀ (p : List (Action T E)) (h : Handler),
      ((Observable.mk p : Observable T E).subscribe h).2 =
        (runActions (Observer.ofHandlers h) p).2) ∧
    (∀ s : Observer T E, Subscription.unsubscribe s = Observer.unsubscribe s) := by
  refine ⟨fun h => rfl, ?_, fun p h => rfl, fun p h => rfl, fun s => rfl⟩
  intro p h
  show ((runActions (Observer.ofHandlers h) p).1).handlers = h
  rw [runActions_handlers]
  rfl


theorem nth_append_length (w : World T E) (x : Observer T E) :
    World.nth (w ++ [x]) w.length = some x := by
  induction w with
  | nil => rfl
  | cons s rest ih => simpa [World.nth] using ih

theorem nth_append_of_lt (w : World T E) (x : Observer T E) :
    ∀ j, j < w.length → World.nth (w ++ [x]) j = World.nth w j := by
  induction w with
  | nil =>
    intro j hj
    simp at hj
  | cons s rest ih =>
    intro j hj
    cases j with
    | zero => rfl
    | succ n =>
      simp only [List.cons_append, World.nth]
      exact ih n (by simpa using hj)

theorem stepAt_frame (w : World T E) :
    ∀ (i j : Nat) (a : Action T E), i ≠ j →
      World.nth ((World.stepAt w i a).1) j = World.nth w j := by
  induction w with
  | nil => intro i j a hij; rfl
  | cons s rest ih =>
    intro i j a hij
    cases i with
    | zero =>
      cases j with
      | zero => exact absurd rfl hij
      | succ m => rfl
    | succ n =>
      cases j with
      | zero => rfl
      | succ m =>
        simp only [World.stepAt, World.nth]
        exact ih n m a (fun hnm => hij (by rw [hnm]))

theorem unsubscribeAt_frame (w : World T E) :
    ∀ i j : Nat, i ≠ j →
      World.nth ((World.unsubscribeAt w i).1) j = World.nth w j := by
  induction w with
  | nil => intro i j hij; rfl
  | cons s rest ih =>
    intro i j hij
    cases i with
    | zero =>
      cases j with
      | zero => exact absurd rfl hij
      | succ m => rfl
    | succ n =>
      cases j with
      | zero => rfl
      | succ m =>
        simp only [World.unsubscribeAt, World.nth]
        exact ih n m (fun hnm => hij (by rw [hnm]))

/-- Claim C8: subscriptions are independent.  A new `subscribe` call
appends its own fresh observer (whose value depends only on the observable
and the handlers, not on the other live subscriptions) and leaves every
existing subscription untouched; afterwards, any producer call or
handle-`unsubscribe` on one subscription leaves the delivery state of
every other subscription unchanged. -/
theorem subscriptions_independent {T E : Type} :
    (∀ (w : World T E) (o : Observable T E) (h : Handler),
      World.nth ((World.subscribeW w o h).1) w.length = some ((o.subscribe h).1)) ∧
    (∀ (w : World T E) (o : Observable T E) (h : Handler) (j : Nat),
      j < w.length →
        World.nth ((World.subscribeW w o h).1) j = World.nth w j) ∧
    (∀ (w : World T E) (i j : Nat) (a : Action T E), i ≠ j →
      World.nth ((World.stepAt w i a).1) j = World.nth w j) ∧
    (∀ (w : World T E) (i j : Nat), i ≠ j →
      World.nth ((World.unsubscribeAt w i).1) j = World.nth w j) := by
  refine ⟨?_, ?_, ?_, ?_⟩
  · intro w o h
    exact nth_append_length w _
  · intro w o h j hj
    exact nth_append_of_lt w _ j hj
  · intro w i j a hij
    exact stepAt_frame w i j a hij
  · intro w i j hij
    exact unsubscribeAt_frame w i j hij

/-- Witness for C8 on a two-subscription world. -/
theorem subscriptions_independent_witness :
    World.nth ((World.stepAt
        [(⟨⟨true, true, true⟩, false, false⟩ : Observer Nat Nat),
         ⟨⟨true, true, true⟩, false, false⟩] 0 (Action.next 1)).1) 1 =
      World.nth
        [(⟨⟨true, true, true⟩, false, false⟩ : Observer Nat Nat),
         ⟨⟨true, true, true⟩, false, false⟩] 1 ∧
    World.nth ((World.subscribeW
        [(⟨⟨true, true, true⟩, false, true⟩ : Observer Nat Nat)]
        (Observable.fromValues [5]) ⟨true, false, false⟩).1) 0 =
      World.nth [(⟨⟨true, true, true⟩, false, true⟩ : Observer Nat Nat)] 0 :=
  ⟨subscriptions_independent.2.2.1 _ 0 1 _ (by decide),
   subscriptions_independent.2.1 _ _ _ 0 (by decide)⟩

/-- Claim C10: `error` and `complete` invoke the supplied handler before
setting the unsubscribed flag, so a re-entrant `observer.next(v)` issued
from inside the error or complete handler of a still-active observer still
invokes `handlers.next(v)`: the delivery trace is the terminal handler
event, then the re-entrant `next` event, then the teardown if one is
registered. -/
theorem handlers_run_before_unsubscribe_flag {T E : Type}
    (s : Observer T E) (v : T) (e : E)
    (hu : s.isUnsubscribed = false) (hn : s.handlers.hasNext = true) :
    (s.handlers.hasError = true →
      (Observer.errorWith s (fun t => Observer.next t v) e).2 =
        Ev.error e :: Ev.next v ::
          (if s.teardownSet then [Ev.teardown] else [])) ∧
    (s.handlers.hasComplete = true →
      (Observer.completeWith s (fun t => Observer.next t v)).2 =
        Ev.complete :: Ev.next v ::
          (if s.teardownSet then [Ev.teardown] else [])) := by
  constructor
  · intro he
    simp [Observer.errorWith, Observer.next, Observer.unsubscribe, hu, hn, he]
  · intro hc
    simp [Observer.completeWith, Observer.next, Observer.unsubscribe, hu, hn, hc]

/-- Witness for C10 at a concrete active observer with all handlers. -/
theorem handlers_run_before_unsubscribe_flag_witness :
    (Observer.errorWith (⟨⟨true, true, true⟩, false, false⟩ : Observer Nat Nat)
        (fun t => Observer.next t 9) 7).2 = [Ev.error 7, Ev.next 9] ∧
    (Observer.completeWith
        (⟨⟨true, true, true⟩, false, false⟩ : Observer Nat Nat)
        (fun t => Observer.next t 9)).2 = [Ev.complete, Ev.next 9] :=
  ⟨((handlers_run_before_unsubscribe_flag
      (⟨⟨true, true, true⟩, false, false⟩ : Observer Nat Nat) 9 7
      rfl rfl).1 rfl).trans (by decide),
   ((handlers_run_before_unsubscribe_flag
      (⟨⟨true, true, true⟩, false, false⟩ : Observer Nat Nat) 9 7
      rfl rfl).2 rfl).trans (by decide)⟩

end TsCore
